import Mathlib

/-!
Shallow embedding of the `mail-api` repository (two Express handler variants:
`src/index.js` and `src/api/index.js`) and proofs about its `/send-mail`
request-handling contract.

JSON request bodies are modelled as typed records with `Option` fields
(`none` = the JSON key is absent / `undefined`).  JavaScript truthiness on the
values the handlers actually test is modelled by `truthyS` (strings: falsy iff
absent or `""`) and `truthyN` (numbers: falsy iff absent or `0`).  The SMTP
transport (nodemailer) is external to the repository; the handlers' calls into
it are modelled by an outcome oracle `SmtpSession` plus an action trace.
-/

namespace MailApi

/-- `smtp` object of the request body (`src/index.js` line 81 destructures
`host, port, secure, user, pass`; the api variant ignores `secure`). -/
structure SmtpConfig where
  host : Option String
  port : Option Int
  secure : Option Bool
  user : Option String
  pass : Option String
  deriving DecidableEq, Repr

/-- `mail` object of the request body: `from, to, subject, body`. -/
structure MailEnvelope where
  fromAddr : Option String
  toAddr : Option String
  subject : Option String
  body : Option String
  deriving DecidableEq, Repr

/-- A parsed `POST /send-mail` JSON body: `{ smtp, mail }`. -/
structure Request where
  smtp : Option SmtpConfig
  mail : Option MailEnvelope
  deriving DecidableEq, Repr

/-- JS truthiness of a (possibly absent) string value: `!x` is true exactly
for `undefined` and `""`. -/
def truthyS : Option String → Bool
  | none => false
  | some s => !(s == "")

/-- JS truthiness of a (possibly absent) number value: `!x` is true exactly
for `undefined` and `0`. -/
def truthyN : Option Int → Bool
  | none => false
  | some n => !(n == 0)

/-- JS `String(x)` coercion applied by `RegExp.test` to a possibly absent
string: `undefined` stringifies to `"undefined"`. -/
def jsString : Option String → String
  | none => "undefined"
  | some s => s

/-- The JS regex class `\s` (ECMAScript WhiteSpace ∪ LineTerminator). -/
def isJsSpace (c : Char) : Bool :=
  let n := c.toNat
  n == 0x9 || n == 0xA || n == 0xB || n == 0xC || n == 0xD || n == 0x20 ||
  n == 0xA0 || n == 0x1680 || (0x2000 ≤ n && n ≤ 0x200A) || n == 0x2028 ||
  n == 0x2029 || n == 0x202F || n == 0x205F || n == 0x3000 || n == 0xFEFF

/-- A character matched by the regex class `[^\s@]`. -/
def isEmailChar (c : Char) : Bool := !(isJsSpace c) && !(c == '@')

/-- Matches `[^\s@]+` against a whole character list. -/
def matchesPlus (l : List Char) : Bool := !l.isEmpty && l.all isEmailChar

/-- Matches `[^\s@]+\.[^\s@]+` against a whole character list: some split at a
literal `'.'` with both sides matching `[^\s@]+`. -/
def matchesDomain (l : List Char) : Bool :=
  (List.range l.length).any fun i =>
    l.get? i == some '.' && matchesPlus (l.take i) && matchesPlus (l.drop (i + 1))

/-- `isValidEmail` from `src/index.js` lines 20-22 and `src/api/index.js`
lines 25-27: `/^[^\s@]+@[^\s@]+\.[^\s@]+$/.test(email)`.  The anchored regex
holds iff the string splits at some `'@'` into a `[^\s@]+` local part and a
`[^\s@]+\.[^\s@]+` domain part. -/
def isValidEmail (s : String) : Bool :=
  let l := s.data
  (List.range l.length).any fun i =>
    l.get? i == some '@' && matchesPlus (l.take i) && matchesDomain (l.drop (i + 1))

/-- The port allow-list of `src/index.js` line 19: `[465, 587, 2525, 3000]`. -/
def allowedPorts_index : List Int := [465, 587, 2525, 3000]

/-- The port allow-list of `src/api/index.js` line 23: `[465, 587, 2525]`. -/
def allowedPorts_api : List Int := [465, 587, 2525]

/-- `allowedPorts.includes(port)` on the raw destructured value
(`undefined` is a member of neither list). -/
def portIncluded (ports : List Int) : Option Int → Bool
  | none => false
  | some n => ports.contains n

/-- JS strict comparison `port === 465` on the raw destructured value. -/
def portIs465 : Option Int → Bool
  | none => false
  | some n => n == 465

/-- The options record passed to `nodemailer.createTransport`: raw destructured
values plus `tls: { rejectUnauthorized: true }`.  `secure` is `none` when the
key is left `undefined`. -/
structure TransportConfig where
  host : Option String
  port : Option Int
  secure : Option Bool
  authUser : Option String
  authPass : Option String
  tlsRejectUnauthorized : Bool
  deriving DecidableEq, Repr

/-- `src/index.js` lines 98-104: `secure` is the request's field verbatim. -/
def transportConfig_index (smtp : SmtpConfig) : TransportConfig :=
  ⟨smtp.host, smtp.port, smtp.secure, smtp.user, smtp.pass, true⟩

/-- `src/api/index.js` lines 192-198: `secure: port === 465`. -/
def transportConfig_api (smtp : SmtpConfig) : TransportConfig :=
  ⟨smtp.host, smtp.port, some (portIs465 smtp.port), smtp.user, smtp.pass, true⟩

/-- The message record passed to `transporter.sendMail`
(`{ from, to, subject, text: body }`). -/
structure SentMail where
  fromAddr : Option String
  toAddr : Option String
  subject : Option String
  text : Option String
  deriving DecidableEq, Repr

def sentMailOf (mail : MailEnvelope) : SentMail :=
  ⟨mail.fromAddr, mail.toAddr, mail.subject, mail.body⟩

/-- JSON response bodies the handlers produce: `{ error: msg }`,
`{ success: false, error: msg }`, `{ success: true, message: msg }`. -/
inductive Body where
  | err (msg : String)
  | fail (msg : String)
  | ok (msg : String)
  deriving DecidableEq, Repr

/-- An HTTP response: status code plus JSON body. -/
structure Response where
  status : Nat
  body : Body
  deriving DecidableEq, Repr

/-- Outcome oracle for the external SMTP transport: whether
`transporter.verify()` resolves, whether `transporter.sendMail(...)` resolves,
and the message of the error thrown on failure (never read by the handlers). -/
structure SmtpSession where
  verifyOk : Bool
  sendOk : Bool
  errorMsg : String
  deriving DecidableEq, Repr

/-- Observable calls the handler makes into nodemailer, in order. -/
inductive SmtpAction where
  | createTransport (cfg : TransportConfig)
  | verify
  | send (m : SentMail)
  deriving DecidableEq, Repr

/-- The `try { ... } catch` block shared by both variants: create the
transporter, `await verify()`, `await sendMail(...)`; any rejection jumps to
the `catch`, which answers 401 with a fixed body. -/
def runSession (cfg : TransportConfig) (mail : MailEnvelope) (sess : SmtpSession) :
    Response × List SmtpAction :=
  if !sess.verifyOk then
    (⟨401, Body.fail "SMTP authentication failed or email rejected"⟩,
     [SmtpAction.createTransport cfg, SmtpAction.verify])
  else if !sess.sendOk then
    (⟨401, Body.fail "SMTP authentication failed or email rejected"⟩,
     [SmtpAction.createTransport cfg, SmtpAction.verify,
      SmtpAction.send (sentMailOf mail)])
  else
    (⟨200, Body.ok "Email sent successfully"⟩,
     [SmtpAction.createTransport cfg, SmtpAction.verify,
      SmtpAction.send (sentMailOf mail)])

/-- The `app.post("/send-mail")` handler of `src/index.js` lines 75-124:
structure check, SMTP-credential check, port allow-list check, mail-field
check, email-format check, then the SMTP session. -/
def handleSendMail_index (req : Request) (sess : SmtpSession) :
    Response × List SmtpAction :=
  match req.smtp, req.mail with
  | some smtp, some mail =>
    if !truthyS smtp.host || !truthyN smtp.port || !truthyS smtp.user ||
       !truthyS smtp.pass then
      (⟨400, Body.err "Incomplete SMTP credentials"⟩, [])
    else if !portIncluded allowedPorts_index smtp.port then
      (⟨400, Body.err "SMTP port not allowed"⟩, [])
    else if !truthyS mail.fromAddr || !truthyS mail.toAddr ||
            !truthyS mail.subject || !truthyS mail.body then
      (⟨400, Body.err "Missing email fields"⟩, [])
    else if !isValidEmail (jsString mail.fromAddr) ||
            !isValidEmail (jsString mail.toAddr) then
      (⟨400, Body.err "Invalid email format"⟩, [])
    else
      runSession (transportConfig_index smtp) mail sess
  | _, _ => (⟨400, Body.err "smtp and mail are required"⟩, [])

/-- The `app.post("/send-mail")` handler of `src/api/index.js` lines 169-217:
same chain, but no port 3000, no mail-field presence check, and
`secure: port === 465`. -/
def handleSendMail_api (req : Request) (sess : SmtpSession) :
    Response × List SmtpAction :=
  match req.smtp, req.mail with
  | some smtp, some mail =>
    if !truthyS smtp.host || !truthyN smtp.port || !truthyS smtp.user ||
       !truthyS smtp.pass then
      (⟨400, Body.err "Incomplete SMTP credentials"⟩, [])
    else if !portIncluded allowedPorts_api smtp.port then
      (⟨400, Body.err "SMTP port not allowed"⟩, [])
    else if !isValidEmail (jsString mail.fromAddr) ||
            !isValidEmail (jsString mail.toAddr) then
      (⟨400, Body.err "Invalid email format"⟩, [])
    else
      runSession (transportConfig_api smtp) mail sess
  | _, _ => (⟨400, Body.err "smtp and mail are required"⟩, [])

/-- The body of the first check in the ordered validation chain that fails
(`some reason`), or `none` when every check passes. -/
def firstFailing : List (Bool × Body) → Option Body
  | [] => none
  | (passed, r) :: rest => if passed then firstFailing rest else some r

/-- Default record standing for destructuring an absent `smtp` object (never
reached: the structure check fires first). -/
def emptySmtp : SmtpConfig := ⟨none, none, none, none, none⟩

/-- Default record standing for destructuring an absent `mail` object. -/
def emptyMail : MailEnvelope := ⟨none, none, none, none⟩

/-- The ordered validation checks of `src/index.js` lines 78-95, as
(pass-condition, failure body) pairs. -/
def checks_index (req : Request) : List (Bool × Body) :=
  let smtp := req.smtp.getD emptySmtp
  let mail := req.mail.getD emptyMail
  [(req.smtp.isSome && req.mail.isSome, Body.err "smtp and mail are required"),
   (truthyS smtp.host && truthyN smtp.port && truthyS smtp.user && truthyS smtp.pass,
     Body.err "Incomplete SMTP credentials"),
   (portIncluded allowedPorts_index smtp.port, Body.err "SMTP port not allowed"),
   (truthyS mail.fromAddr && truthyS mail.toAddr && truthyS mail.subject &&
      truthyS mail.body, Body.err "Missing email fields"),
   (isValidEmail (jsString mail.fromAddr) && isValidEmail (jsString mail.toAddr),
     Body.err "Invalid email format")]

/-- The ordered validation checks of `src/api/index.js` lines 172-189: no
mail-field presence check, allow-list without 3000. -/
def checks_api (req : Request) : List (Bool × Body) :=
  let smtp := req.smtp.getD emptySmtp
  let mail := req.mail.getD emptyMail
  [(req.smtp.isSome && req.mail.isSome, Body.err "smtp and mail are required"),
   (truthyS smtp.host && truthyN smtp.port && truthyS smtp.user && truthyS smtp.pass,
     Body.err "Incomplete SMTP credentials"),
   (portIncluded allowedPorts_api smtp.port, Body.err "SMTP port not allowed"),
   (isValidEmail (jsString mail.fromAddr) && isValidEmail (jsString mail.toAddr),
     Body.err "Invalid email format")]

/-- A request passes the whole `src/index.js` validation chain. -/
def passesValidation_index (req : Request) : Bool :=
  (firstFailing (checks_index req)).isNone

/-- A request passes the whole `src/api/index.js` validation chain. -/
def passesValidation_api (req : Request) : Bool :=
  (firstFailing (checks_api req)).isNone

/-- `smtp`/`mail` absent, or some required field of the `src/index.js` chain
is missing or empty (JS-falsy). -/
def missingRequired_index (req : Request) : Bool :=
  match req.smtp, req.mail with
  | some smtp, some mail =>
    !truthyS smtp.host || !truthyN smtp.port || !truthyS smtp.user ||
    !truthyS smtp.pass || !truthyS mail.fromAddr || !truthyS mail.toAddr ||
    !truthyS mail.subject || !truthyS mail.body
  | _, _ => true

/-- `smtp`/`mail` absent, or some field the `src/api/index.js` chain still
rejects when missing (everything except `subject` and `body`) is falsy. -/
def missingRequired_api (req : Request) : Bool :=
  match req.smtp, req.mail with
  | some smtp, some mail =>
    !truthyS smtp.host || !truthyN smtp.port || !truthyS smtp.user ||
    !truthyS smtp.pass || !truthyS mail.fromAddr || !truthyS mail.toAddr
  | _, _ => true

/-- Replace the `smtp.pass` field of a request, leaving all else unchanged. -/
def setPass (req : Request) (p : Option String) : Request :=
  { req with smtp := req.smtp.map fun s => { s with pass := p } }

/-- Every JSON body either handler can ever answer with: a fixed finite set of
constants, none containing request data. -/
def fixedBodies : List Body :=
  [Body.err "smtp and mail are required", Body.err "Incomplete SMTP credentials",
   Body.err "SMTP port not allowed", Body.err "Missing email fields",
   Body.err "Invalid email format",
   Body.fail "SMTP authentication failed or email rejected",
   Body.ok "Email sent successfully"]

/-! ### Trace predicates (claim C7) -/

def isCreateA : SmtpAction → Bool
  | SmtpAction.createTransport _ => true
  | _ => false

def isVerifyA : SmtpAction → Bool
  | SmtpAction.verify => true
  | _ => false

def isSendA : SmtpAction → Bool
  | SmtpAction.send _ => true
  | _ => false

/-- Number of actions in a trace satisfying `p`. -/
def countActions (p : SmtpAction → Bool) (t : List SmtpAction) : Nat :=
  (t.filter p).length

/-- Scans a trace left to right; `seen` records whether a `verify` has
happened; every `send` must come strictly after some `verify`. -/
def sendsAfterVerifyAux (seen : Bool) : List SmtpAction → Bool
  | [] => true
  | a :: rest => (!(isSendA a) || seen) && sendsAfterVerifyAux (seen || isVerifyA a) rest

/-- Every `send` in the trace is preceded by a `verify`. -/
def sendsAfterVerify (t : List SmtpAction) : Bool := sendsAfterVerifyAux false t

/-! ### Rate limiter (claim C8)

The limiter configuration lives in src (`windowMs: 15 * 60 * 1000`, `max: 20`,
`message: { error: "Too many requests" }` — `src/index.js` lines 12-17,
`src/api/index.js` lines 15-19, both mounted on `/send-mail`); the counting
algorithm is inside the external `express-rate-limit` package. -/

/-- `windowMs: 15 * 60 * 1000` (milliseconds). -/
def windowMs : Nat := 15 * 60 * 1000

/-- `max: 20` requests per window per client identity. -/
def maxRequests : Nat := 20

/-- `message: { error: "Too many requests" }`, served with status 429. -/
def rateLimitBody : Body := Body.err "Too many requests"

/-- Modelled from the spec: the counting algorithm of `express-rate-limit` is
library code not under src/; the spec describes a sliding-window limit per
client identity.  `history` holds the timestamps of the client's earlier
requests (all counted, served or not); a request at time `t` counts those
still inside the window `(t - windowMs, t]`. -/
def recentCount (history : List Nat) (t : Nat) : Nat :=
  (history.filter fun s => t < s + windowMs).length

/-- Modelled from the spec: one request through the limiter-fronted
`/send-mail` route.  Below the threshold the request is forwarded to the
handler; at or above it the route answers 429 with the fixed body and the
handler never runs (empty SMTP trace).  Either way the hit is recorded. -/
def rateLimitedRoute (handle : Request → SmtpSession → Response × List SmtpAction)
    (history : List Nat) (t : Nat) (req : Request) (sess : SmtpSession) :
    (Response × List SmtpAction) × List Nat :=
  if recentCount history t < maxRequests then (handle req sess, t :: history)
  else ((⟨429, rateLimitBody⟩, []), t :: history)

/-- Serve a sequence of timed requests from one client, threading the
limiter history. -/
def serveAll (handle : Request → SmtpSession → Response × List SmtpAction) :
    List (Nat × Request × SmtpSession) → List Nat →
    List (Response × List SmtpAction) × List Nat
  | [], history => ([], history)
  | (t, req, sess) :: rest, history =>
    let step := rateLimitedRoute handle history t req sess
    let next := serveAll handle rest step.2
    (step.1 :: next.1, next.2)

/-! ### Concrete fixtures -/

/-- The spec's concrete valid SMTP credentials. -/
def smtpOk : SmtpConfig :=
  ⟨some "smtp.example.com", some 587, none, some "a@example.com", some "x"⟩

/-- The spec's concrete valid envelope. -/
def mailOk : MailEnvelope :=
  ⟨some "a@example.com", some "b@example.com", some "Hi", some "Hello"⟩

/-- A succeeding SMTP double. -/
def sessOk : SmtpSession := ⟨true, true, ""⟩

/-- A double whose `verify()` rejects with a transport-level error. -/
def sessFailVerify : SmtpSession := ⟨false, true, "ECONNREFUSED 127.0.0.1:587"⟩

/-! ## Helper lemmas -/

theorem not_or_four (a b c d : Bool) :
    (!a || !b || !c || !d) = !(a && b && c && d) := by
  cases a <;> cases b <;> cases c <;> cases d <;> rfl

theorem not_or_two (a b : Bool) : (!a || !b) = !(a && b) := by
  cases a <;> cases b <;> rfl

/-- The HTTP response of the session phase: 200 on full success, 401
otherwise, independent of the transport configuration. -/
theorem runSession_fst (cfg : TransportConfig) (mail : MailEnvelope)
    (sess : SmtpSession) :
    (runSession cfg mail sess).1 =
      if sess.verifyOk && sess.sendOk then ⟨200, Body.ok "Email sent successfully"⟩
      else ⟨401, Body.fail "SMTP authentication failed or email rejected"⟩ := by
  cases hv : sess.verifyOk <;> cases hs : sess.sendOk <;> simp [runSession, hv, hs]

/-- When some validation check of the `src/index.js` chain fails, the handler
answers 400 with the first failing check's body and performs no SMTP action. -/
theorem handle_index_firstFailing (req : Request) (sess : SmtpSession) (b : Body)
    (hb : firstFailing (checks_index req) = some b) :
    handleSendMail_index req sess = (⟨400, b⟩, []) := by
  obtain ⟨osmtp, omail⟩ := req
  cases osmtp with
  | none =>
    simp only [checks_index, firstFailing] at hb
    simp only [Option.isSome_none, Bool.false_and, if_false] at hb
    cases omail <;> exact congrArg (fun x => ((⟨400, x⟩ : Response), [])) (Option.some.inj hb)
  | some smtp =>
    cases omail with
    | none =>
      simp only [checks_index, firstFailing] at hb
      simp only [Option.isSome_some, Option.isSome_none, Bool.and_false, if_false] at hb
      exact congrArg (fun x => ((⟨400, x⟩ : Response), [])) (Option.some.inj hb)
    | some mail =>
      simp only [checks_index, firstFailing, Option.isSome_some, Bool.and_self,
        Option.getD_some, if_true] at hb
      simp only [handleSendMail_index, not_or_four, not_or_two]
      split_ifs at hb <;> simp_all

/-- When some validation check of the `src/api/index.js` chain fails, the
handler answers 400 with the first failing check's body and performs no SMTP
action. -/
theorem handle_api_firstFailing (req : Request) (sess : SmtpSession) (b : Body)
    (hb : firstFailing (checks_api req) = some b) :
    handleSendMail_api req sess = (⟨400, b⟩, []) := by
  obtain ⟨osmtp, omail⟩ := req
  cases osmtp with
  | none =>
    simp only [checks_api, firstFailing] at hb
    simp only [Option.isSome_none, Bool.false_and, if_false] at hb
    cases omail <;> exact congrArg (fun x => ((⟨400, x⟩ : Response), [])) (Option.some.inj hb)
  | some smtp =>
    cases omail with
    | none =>
      simp only [checks_api, firstFailing] at hb
      simp only [Option.isSome_some, Option.isSome_none, Bool.and_false, if_false] at hb
      exact congrArg (fun x => ((⟨400, x⟩ : Response), [])) (Option.some.inj hb)
    | some mail =>
      simp only [checks_api, firstFailing, Option.isSome_some, Bool.and_self,
        Option.getD_some, if_true] at hb
      simp only [handleSendMail_api, not_or_four, not_or_two]
      split_ifs at hb <;> simp_all

/-- A request passing the whole `src/index.js` validation chain has both
objects present. -/
theorem passes_index_shape (req : Request)
    (hpass : passesValidation_index req = true) :
    ∃ smtp mail, req.smtp = some smtp ∧ req.mail = some mail := by
  obtain ⟨osmtp, omail⟩ := req
  cases osmtp <;> cases omail <;>
    simp_all [passesValidation_index, checks_index, firstFailing]

/-- A request passing the whole `src/api/index.js` validation chain has both
objects present. -/
theorem passes_api_shape (req : Request)
    (hpass : passesValidation_api req = true) :
    ∃ smtp mail, req.smtp = some smtp ∧ req.mail = some mail := by
  obtain ⟨osmtp, omail⟩ := req
  cases osmtp <;> cases omail <;>
    simp_all [passesValidation_api, checks_api, firstFailing]

/-- A request passing every check of the `src/index.js` chain reaches the SMTP
session with the transport configuration built from its own `smtp` object. -/
theorem handle_index_of_passes (smtp : SmtpConfig) (mail : MailEnvelope)
    (sess : SmtpSession)
    (hpass : passesValidation_index ⟨some smtp, some mail⟩ = true) :
    handleSendMail_index ⟨some smtp, some mail⟩ sess =
      runSession (transportConfig_index smtp) mail sess := by
  simp only [passesValidation_index, checks_index, firstFailing, Option.isSome_some,
    Bool.and_self, Option.getD_some, if_true] at hpass
  simp only [handleSendMail_index, not_or_four, not_or_two]
  split_ifs at hpass <;> simp_all

/-- A request passing every check of the `src/api/index.js` chain reaches the
SMTP session with the transport configuration built from its own `smtp`
object. -/
theorem handle_api_of_passes (smtp : SmtpConfig) (mail : MailEnvelope)
    (sess : SmtpSession)
    (hpass : passesValidation_api ⟨some smtp, some mail⟩ = true) :
    handleSendMail_api ⟨some smtp, some mail⟩ sess =
      runSession (transportConfig_api smtp) mail sess := by
  simp only [passesValidation_api, checks_api, firstFailing, Option.isSome_some,
    Bool.and_self, Option.getD_some, if_true] at hpass
  simp only [handleSendMail_api, not_or_four, not_or_two]
  split_ifs at hpass <;> simp_all

/-- A string value that is JS-falsy (absent or empty) never passes the email
regex after `String(x)` coercion. -/
theorem falsy_email_invalid (x : Option String) (hx : truthyS x = false) :
    isValidEmail (jsString x) = false := by
  cases x with
  | none => decide
  | some s =>
    simp only [truthyS, Bool.not_eq_false'] at hx
    have hs : s = "" := by simpa using hx
    subst hs
    decide

/-! ## Claim theorems -/

/-- C9: the validation checks run in a fixed order — presence of `smtp`/`mail`,
then SMTP credential fields, then port allow-list, then (in `src/index.js`)
mail fields, then email format — so for a request with several invalid
aspects, both handlers answer 400 with the reason of the first failing check
of their chain, and no SMTP action happens. -/
theorem sendMail_validation_order (req : Request) (sess : SmtpSession) (b : Body) :
    (firstFailing (checks_index req) = some b →
      handleSendMail_index req sess = (⟨400, b⟩, [])) ∧
    (firstFailing (checks_api req) = some b →
      handleSendMail_api req sess = (⟨400, b⟩, [])) :=
  ⟨handle_index_firstFailing req sess b, handle_api_firstFailing req sess b⟩

/-- A request with a disallowed port (25) and a malformed `from` address. -/
def reqBadPortBadFrom : Request :=
  ⟨some ⟨some "smtp.example.com", some 25, none, some "a@example.com", some "x"⟩,
   some ⟨some "not-an-email", some "b@example.com", some "Hi", some "Hello"⟩⟩

/-- Witness for C9: a disallowed port together with a malformed `from` yields
"SMTP port not allowed", never "Invalid email format", in both variants. -/
theorem sendMail_validation_order_witness :
    handleSendMail_index reqBadPortBadFrom sessOk =
      (⟨400, Body.err "SMTP port not allowed"⟩, []) ∧
    handleSendMail_api reqBadPortBadFrom sessOk =
      (⟨400, Body.err "SMTP port not allowed"⟩, []) :=
  ⟨(sendMail_validation_order reqBadPortBadFrom sessOk
      (Body.err "SMTP port not allowed")).1 (by decide),
   (sendMail_validation_order reqBadPortBadFrom sessOk
      (Body.err "SMTP port not allowed")).2 (by decide)⟩

/-- A request for `src/api/index.js` whose `mail.subject` is present but
empty, all other fields valid. -/
def reqEmptySubject : Request :=
  ⟨some smtpOk, some ⟨some "a@example.com", some "b@example.com", some "", some "Hello"⟩⟩

/-- Counterexample to C1: in `src/api/index.js` an empty required field
(`subject`) is not rejected — the handler attempts the SMTP session (nonempty
action trace) and, with a succeeding double, answers 200, not 400. -/
theorem missing_field_counterexample :
    (reqEmptySubject.mail.getD emptyMail).subject = some "" ∧
    handleSendMail_api reqEmptySubject sessOk =
      (⟨200, Body.ok "Email sent successfully"⟩,
       [SmtpAction.createTransport (transportConfig_api smtpOk), SmtpAction.verify,
        SmtpAction.send (sentMailOf (reqEmptySubject.mail.getD emptyMail))]) := by
  exact ⟨rfl, by decide⟩

/-- C1 (amended): if `smtp`/`mail` is absent or a required field is missing or
empty, then: in `src/index.js` (all eight fields required) the response is 400
with no SMTP action, the reason being one of the three listed strings or
"SMTP port not allowed" when the port check fires first; in `src/api/index.js`
the same holds only for `host`, `port`, `user`, `pass`, `from`, `to` — with
missing/empty `from`/`to` surfacing as "Invalid email format" — while an empty
`subject`/`body` alone is not rejected. -/
theorem missing_field_response (req : Request) (sess : SmtpSession) :
    (missingRequired_index req = true →
      (handleSendMail_index req sess).1.status = 400 ∧
      (handleSendMail_index req sess).1.body ∈
        [Body.err "smtp and mail are required",
         Body.err "Incomplete SMTP credentials",
         Body.err "SMTP port not allowed",
         Body.err "Missing email fields"] ∧
      (handleSendMail_index req sess).2 = []) ∧
    (missingRequired_api req = true →
      (handleSendMail_api req sess).1.status = 400 ∧
      (handleSendMail_api req sess).1.body ∈
        [Body.err "smtp and mail are required",
         Body.err "Incomplete SMTP credentials",
         Body.err "SMTP port not allowed",
         Body.err "Invalid email format"] ∧
      (handleSendMail_api req sess).2 = []) := by
  obtain ⟨osmtp, omail⟩ := req
  cases osmtp with
  | none => cases omail <;> exact ⟨fun _ => by simp [handleSendMail_index],
      fun _ => by simp [handleSendMail_api]⟩
  | some smtp =>
    cases omail with
    | none => exact ⟨fun _ => by simp [handleSendMail_index],
        fun _ => by simp [handleSendMail_api]⟩
    | some mail =>
      constructor
      · intro h
        simp only [missingRequired_index] at h
        simp only [handleSendMail_index]
        cases h1 : truthyS smtp.host <;> cases h2 : truthyN smtp.port <;>
          cases h3 : truthyS smtp.user <;> cases h4 : truthyS smtp.pass <;>
          simp_all <;>
          cases h5 : portIncluded allowedPorts_index smtp.port <;>
          simp_all
      · intro h
        simp only [missingRequired_api] at h
        simp only [handleSendMail_api]
        cases h1 : truthyS smtp.host <;> cases h2 : truthyN smtp.port <;>
          cases h3 : truthyS smtp.user <;> cases h4 : truthyS smtp.pass <;>
          simp_all <;>
          cases h5 : portIncluded allowedPorts_api smtp.port <;>
          simp_all <;>
          cases h6 : truthyS mail.fromAddr <;> cases h7 : truthyS mail.toAddr <;>
          simp_all [falsy_email_invalid]

/-- Witness for C1 (amended): a request missing `mail.to` is rejected with 400
and an empty action trace by both variants. -/
theorem missing_field_response_witness :
    ((handleSendMail_index ⟨some smtpOk, some ⟨some "a@example.com", none, some "Hi",
        some "Hello"⟩⟩ sessOk).1.status = 400 ∧
      (handleSendMail_index ⟨some smtpOk, some ⟨some "a@example.com", none, some "Hi",
        some "Hello"⟩⟩ sessOk).2 = []) ∧
    ((handleSendMail_api ⟨some smtpOk, some ⟨some "a@example.com", none, some "Hi",
        some "Hello"⟩⟩ sessOk).1.status = 400 ∧
      (handleSendMail_api ⟨some smtpOk, some ⟨some "a@example.com", none, some "Hi",
        some "Hello"⟩⟩ sessOk).2 = []) := by
  have h := missing_field_response ⟨some smtpOk, some ⟨some "a@example.com", none,
    some "Hi", some "Hello"⟩⟩ sessOk
  have h1 := h.1 (by decide)
  have h2 := h.2 (by decide)
  exact ⟨⟨h1.1, h1.2.2⟩, ⟨h2.1, h2.2.2⟩⟩

/-- Valid credentials except that the port (25) is in neither allow-list. -/
def smtpPort25 : SmtpConfig :=
  ⟨some "smtp.example.com", some 25, none, some "a@example.com", some "x"⟩

/-- A fully valid request whose port is 3000. -/
def reqPort3000 : Request :=
  ⟨some ⟨some "smtp.example.com", some 3000, none, some "a@example.com", some "x"⟩,
   some mailOk⟩

/-- Counterexample to C2: port 3000 is outside the claimed allow-list
{465, 587, 2525}, yet `src/index.js` (whose list also holds 3000) forwards the
request to the SMTP session and answers 200 on success. -/
theorem port_allowlist_counterexample :
    ¬((3000 : Int) ∈ ([465, 587, 2525] : List Int)) ∧
    (reqPort3000.smtp.getD emptySmtp).port = some 3000 ∧
    (handleSendMail_index reqPort3000 sessOk).1 =
      ⟨200, Body.ok "Email sent successfully"⟩ ∧
    (handleSendMail_index reqPort3000 sessOk).2 ≠ [] := by decide

/-- C2 (amended): for a request whose presence checks pass, a port outside the
variant's own allow-list (`[465, 587, 2525, 3000]` in `src/index.js`,
`[465, 587, 2525]` in `src/api/index.js`) yields 400 "SMTP port not allowed"
and no SMTP action, regardless of the mail fields. -/
theorem port_not_allowed_response (smtp : SmtpConfig) (mail : MailEnvelope)
    (sess : SmtpSession)
    (hcred : (truthyS smtp.host && truthyN smtp.port && truthyS smtp.user &&
      truthyS smtp.pass) = true) :
    (portIncluded allowedPorts_index smtp.port = false →
      handleSendMail_index ⟨some smtp, some mail⟩ sess =
        (⟨400, Body.err "SMTP port not allowed"⟩, [])) ∧
    (portIncluded allowedPorts_api smtp.port = false →
      handleSendMail_api ⟨some smtp, some mail⟩ sess =
        (⟨400, Body.err "SMTP port not allowed"⟩, [])) := by
  simp only [Bool.and_eq_true] at hcred
  obtain ⟨⟨⟨hh, hp⟩, hu⟩, hpw⟩ := hcred
  constructor <;> intro hport
  · simp [handleSendMail_index, hh, hp, hu, hpw, hport]
  · simp [handleSendMail_api, hh, hp, hu, hpw, hport]

/-- Witness for C2 (amended): port 25 with otherwise valid fields is rejected
by both variants. -/
theorem port_not_allowed_witness :
    handleSendMail_index ⟨some smtpPort25, some mailOk⟩ sessOk =
      (⟨400, Body.err "SMTP port not allowed"⟩, []) ∧
    handleSendMail_api ⟨some smtpPort25, some mailOk⟩ sessOk =
      (⟨400, Body.err "SMTP port not allowed"⟩, []) :=
  ⟨(port_not_allowed_response smtpPort25 mailOk sessOk (by decide)).1 (by decide),
   (port_not_allowed_response smtpPort25 mailOk sessOk (by decide)).2 (by decide)⟩

/-- Any string accepted by the email regex contains an `'@'` and a `'.'`. -/
theorem validEmail_has_at_and_dot (s : String) (hs : isValidEmail s = true) :
    '@' ∈ s.data ∧ '.' ∈ s.data := by
  simp only [isValidEmail, List.any_eq_true] at hs
  obtain ⟨i, _, hcond⟩ := hs
  simp only [Bool.and_eq_true, beq_iff_eq] at hcond
  obtain ⟨⟨hat, _⟩, hdom⟩ := hcond
  refine ⟨List.get?_mem hat, ?_⟩
  simp only [matchesDomain, List.any_eq_true] at hdom
  obtain ⟨j, _, hc⟩ := hdom
  simp only [Bool.and_eq_true, beq_iff_eq] at hc
  obtain ⟨⟨hdot, _⟩, _⟩ := hc
  exact List.mem_of_mem_drop (List.get?_mem hdot)

/-- C3: for a request past the structural (presence) and port checks, the
response is 400 "Invalid email format" iff `from` or `to` fails the regex
`/^[^\s@]+@[^\s@]+\.[^\s@]+$/`; and every string the regex accepts contains an
`'@'` and a domain dot, so values lacking either are rejected. -/
theorem email_format_response (smtp : SmtpConfig) (mail : MailEnvelope)
    (sess : SmtpSession)
    (hcred : (truthyS smtp.host && truthyN smtp.port && truthyS smtp.user &&
      truthyS smtp.pass) = true) :
    (portIncluded allowedPorts_index smtp.port = true →
      (truthyS mail.fromAddr && truthyS mail.toAddr && truthyS mail.subject &&
        truthyS mail.body) = true →
      ((handleSendMail_index ⟨some smtp, some mail⟩ sess).1 =
          ⟨400, Body.err "Invalid email format"⟩ ↔
        ¬(isValidEmail (jsString mail.fromAddr) = true ∧
          isValidEmail (jsString mail.toAddr) = true))) ∧
    (portIncluded allowedPorts_api smtp.port = true →
      ((handleSendMail_api ⟨some smtp, some mail⟩ sess).1 =
          ⟨400, Body.err "Invalid email format"⟩ ↔
        ¬(isValidEmail (jsString mail.fromAddr) = true ∧
          isValidEmail (jsString mail.toAddr) = true))) ∧
    (∀ s : String, isValidEmail s = true → '@' ∈ s.data ∧ '.' ∈ s.data) := by
  simp only [Bool.and_eq_true] at hcred
  obtain ⟨⟨⟨hh, hp⟩, hu⟩, hpw⟩ := hcred
  refine ⟨fun hport hmail => ?_, fun hport => ?_, validEmail_has_at_and_dot⟩
  · simp only [Bool.and_eq_true] at hmail
    obtain ⟨⟨⟨hf, ht⟩, hsub⟩, hb⟩ := hmail
    cases he1 : isValidEmail (jsString mail.fromAddr) <;>
      cases he2 : isValidEmail (jsString mail.toAddr) <;>
      cases hv : sess.verifyOk <;> cases hsend : sess.sendOk <;>
      simp_all [handleSendMail_index, runSession]
  · cases he1 : isValidEmail (jsString mail.fromAddr) <;>
      cases he2 : isValidEmail (jsString mail.toAddr) <;>
      cases hv : sess.verifyOk <;> cases hsend : sess.sendOk <;>
      simp_all [handleSendMail_api, runSession]

/-- An envelope whose `from` lacks an `'@'`. -/
def mailBadFrom : MailEnvelope :=
  ⟨some "not-an-email", some "b@example.com", some "Hi", some "Hello"⟩

/-- Witness for C3: a `from` with no `'@'` yields 400 "Invalid email format"
in `src/index.js`. -/
theorem email_format_response_witness :
    (handleSendMail_index ⟨some smtpOk, some mailBadFrom⟩ sessOk).1 =
      ⟨400, Body.err "Invalid email format"⟩ :=
  ((email_format_response smtpOk mailBadFrom sessOk (by decide)).1
    (by decide) (by decide)).mpr (by decide)

/-- Valid credentials on port 587 with an explicit `secure: true` flag. -/
def smtpSecureTrue587 : SmtpConfig :=
  ⟨some "smtp.example.com", some 587, some true, some "a@example.com", some "x"⟩

/-- Counterexample to C4: `src/api/index.js` supplies `secure: port === 465`
to `createTransport` even when the request carries an explicit `secure: true`
flag — the session on port 587 runs with `secure = false`, not the explicit
flag. -/
theorem transport_secure_counterexample :
    smtpSecureTrue587.secure = some true ∧
    (handleSendMail_api ⟨some smtpSecureTrue587, some mailOk⟩ sessOk).2 =
      [SmtpAction.createTransport (transportConfig_api smtpSecureTrue587),
       SmtpAction.verify, SmtpAction.send (sentMailOf mailOk)] ∧
    (transportConfig_api smtpSecureTrue587).secure = some false := by decide

/-- C4 (amended): every transport configuration either handler ever creates
enforces TLS certificate validation (`tls.rejectUnauthorized: true`); the
`secure` flag is the request's own `secure` field passed through verbatim in
`src/index.js` (absent when not supplied), and `port === 465` in
`src/api/index.js` regardless of any explicit flag. -/
theorem transport_secure_config (smtp : SmtpConfig) (mail : MailEnvelope)
    (sess : SmtpSession) (cfg : TransportConfig) :
    (SmtpAction.createTransport cfg ∈
        (handleSendMail_index ⟨some smtp, some mail⟩ sess).2 →
      cfg.tlsRejectUnauthorized = true ∧ cfg.secure = smtp.secure) ∧
    (SmtpAction.createTransport cfg ∈
        (handleSendMail_api ⟨some smtp, some mail⟩ sess).2 →
      cfg.tlsRejectUnauthorized = true ∧
      cfg.secure = some (portIs465 smtp.port)) := by
  constructor <;> intro hmem
  · simp only [handleSendMail_index] at hmem
    split_ifs at hmem <;>
      cases hv : sess.verifyOk <;> cases hsend : sess.sendOk <;>
      simp_all [runSession, transportConfig_index]
  · simp only [handleSendMail_api] at hmem
    split_ifs at hmem <;>
      cases hv : sess.verifyOk <;> cases hsend : sess.sendOk <;>
      simp_all [runSession, transportConfig_api]

/-- Witness for C4 (amended): the configuration `src/api/index.js` creates for
the spec's valid request enforces certificate validation and derives `secure`
from `port === 465`. -/
theorem transport_secure_config_witness :
    (transportConfig_api smtpOk).tlsRejectUnauthorized = true ∧
    (transportConfig_api smtpOk).secure = some (portIs465 smtpOk.port) :=
  (transport_secure_config smtpOk mailOk sessOk (transportConfig_api smtpOk)).2
    (by decide)

/-- Neither handler ever reads the thrown error: the whole result is unchanged
under any change of the transport error message. -/
theorem handle_errorMsg_irrel (req : Request) (v s : Bool) (m₁ m₂ : String) :
    handleSendMail_index req ⟨v, s, m₁⟩ = handleSendMail_index req ⟨v, s, m₂⟩ ∧
    handleSendMail_api req ⟨v, s, m₁⟩ = handleSendMail_api req ⟨v, s, m₂⟩ := by
  obtain ⟨osmtp, omail⟩ := req
  cases osmtp <;> cases omail <;> exact ⟨rfl, rfl⟩

/-- C5: for a request of valid shape (passing all validation), any failure of
`verify()` or `sendMail(...)` produces exactly the fixed response
`401 { success: false, error: "SMTP authentication failed or email rejected" }`
— never a 500, and independent of the underlying transport error message. -/
theorem session_failure_response (req : Request) (sess : SmtpSession)
    (hfail : sess.verifyOk = false ∨ sess.sendOk = false) :
    (passesValidation_index req = true →
      (handleSendMail_index req sess).1 =
        ⟨401, Body.fail "SMTP authentication failed or email rejected"⟩) ∧
    (passesValidation_api req = true →
      (handleSendMail_api req sess).1 =
        ⟨401, Body.fail "SMTP authentication failed or email rejected"⟩) ∧
    (∀ m₁ m₂ : String,
      handleSendMail_index req ⟨sess.verifyOk, sess.sendOk, m₁⟩ =
        handleSendMail_index req ⟨sess.verifyOk, sess.sendOk, m₂⟩ ∧
      handleSendMail_api req ⟨sess.verifyOk, sess.sendOk, m₁⟩ =
        handleSendMail_api req ⟨sess.verifyOk, sess.sendOk, m₂⟩) := by
  refine ⟨fun hpass => ?_, fun hpass => ?_,
    fun m₁ m₂ => handle_errorMsg_irrel req sess.verifyOk sess.sendOk m₁ m₂⟩
  · obtain ⟨smtp, mail, hs, hm⟩ := passes_index_shape req hpass
    obtain ⟨osmtp, omail⟩ := req
    cases hs; cases hm
    rw [handle_index_of_passes smtp mail sess hpass, runSession_fst]
    rcases hfail with h | h <;> simp [h]
  · obtain ⟨smtp, mail, hs, hm⟩ := passes_api_shape req hpass
    obtain ⟨osmtp, omail⟩ := req
    cases hs; cases hm
    rw [handle_api_of_passes smtp mail sess hpass, runSession_fst]
    rcases hfail with h | h <;> simp [h]

/-- Witness for C5: a valid request with a failing `verify()` double gets the
fixed 401 from both variants. -/
theorem session_failure_response_witness :
    (handleSendMail_index ⟨some smtpOk, some mailOk⟩ sessFailVerify).1 =
      ⟨401, Body.fail "SMTP authentication failed or email rejected"⟩ ∧
    (handleSendMail_api ⟨some smtpOk, some mailOk⟩ sessFailVerify).1 =
      ⟨401, Body.fail "SMTP authentication failed or email rejected"⟩ :=
  ⟨(session_failure_response ⟨some smtpOk, some mailOk⟩ sessFailVerify
      (Or.inl (by decide))).1 (by decide),
   (session_failure_response ⟨some smtpOk, some mailOk⟩ sessFailVerify
      (Or.inl (by decide))).2.1 (by decide)⟩

/-- C6: a request passing every validation step whose `verify()` and
`sendMail(...)` both succeed is answered with exactly
`200 { success: true, message: "Email sent successfully" }` by both
variants. -/
theorem success_response (req : Request) (sess : SmtpSession)
    (hv : sess.verifyOk = true) (hsend : sess.sendOk = true) :
    (passesValidation_index req = true →
      (handleSendMail_index req sess).1 =
        ⟨200, Body.ok "Email sent successfully"⟩) ∧
    (passesValidation_api req = true →
      (handleSendMail_api req sess).1 =
        ⟨200, Body.ok "Email sent successfully"⟩) := by
  refine ⟨fun hpass => ?_, fun hpass => ?_⟩
  · obtain ⟨smtp, mail, hs, hm⟩ := passes_index_shape req hpass
    obtain ⟨osmtp, omail⟩ := req
    cases hs; cases hm
    rw [handle_index_of_passes smtp mail sess hpass, runSession_fst]
    simp [hv, hsend]
  · obtain ⟨smtp, mail, hs, hm⟩ := passes_api_shape req hpass
    obtain ⟨osmtp, omail⟩ := req
    cases hs; cases hm
    rw [handle_api_of_passes smtp mail sess hpass, runSession_fst]
    simp [hv, hsend]

/-- Witness for C6: the spec's concrete scenario — `smtp.example.com:587`,
`a@example.com` → `b@example.com`, succeeding double — yields 200 from both
variants. -/
theorem success_response_witness :
    (handleSendMail_index ⟨some smtpOk, some mailOk⟩ sessOk).1 =
      ⟨200, Body.ok "Email sent successfully"⟩ ∧
    (handleSendMail_api ⟨some smtpOk, some mailOk⟩ sessOk).1 =
      ⟨200, Body.ok "Email sent successfully"⟩ :=
  ⟨(success_response ⟨some smtpOk, some mailOk⟩ sessOk (by decide) (by decide)).1
      (by decide),
   (success_response ⟨some smtpOk, some mailOk⟩ sessOk (by decide) (by decide)).2
      (by decide)⟩

/-- Characterization of the SMTP action traces either handler can produce:
empty (validation failed), create-verify (verification failed), or
create-verify-send (verification succeeded). -/
theorem handle_trace_cases (req : Request) (sess : SmtpSession) (t : List SmtpAction)
    (ht : t = (handleSendMail_index req sess).2 ∨ t = (handleSendMail_api req sess).2) :
    t = [] ∨
    (∃ cfg, t = [SmtpAction.createTransport cfg, SmtpAction.verify] ∧
      sess.verifyOk = false) ∨
    (∃ cfg m, t = [SmtpAction.createTransport cfg, SmtpAction.verify,
      SmtpAction.send m] ∧ sess.verifyOk = true) := by
  obtain ⟨osmtp, omail⟩ := req
  rcases ht with ht | ht <;> subst ht
  all_goals cases osmtp with
  | none => cases omail <;> simp [handleSendMail_index, handleSendMail_api]
  | some smtp =>
    cases omail with
    | none => simp [handleSendMail_index, handleSendMail_api]
    | some mail =>
      simp only [handleSendMail_index, handleSendMail_api]
      split_ifs <;> cases hv : sess.verifyOk <;> cases hsend : sess.sendOk <;>
        simp_all [runSession]

/-- C7: on every request, each variant performs at most one `createTransport`,
at most one `verify()` and at most one `sendMail(...)` call (no retries); every
send is preceded by a verify; and when `verify()` fails no send is attempted. -/
theorem session_call_discipline (req : Request) (sess : SmtpSession) :
    (countActions isCreateA (handleSendMail_index req sess).2 ≤ 1 ∧
     countActions isVerifyA (handleSendMail_index req sess).2 ≤ 1 ∧
     countActions isSendA (handleSendMail_index req sess).2 ≤ 1 ∧
     (sess.verifyOk = false →
       countActions isSendA (handleSendMail_index req sess).2 = 0) ∧
     sendsAfterVerify (handleSendMail_index req sess).2 = true) ∧
    (countActions isCreateA (handleSendMail_api req sess).2 ≤ 1 ∧
     countActions isVerifyA (handleSendMail_api req sess).2 ≤ 1 ∧
     countActions isSendA (handleSendMail_api req sess).2 ≤ 1 ∧
     (sess.verifyOk = false →
       countActions isSendA (handleSendMail_api req sess).2 = 0) ∧
     sendsAfterVerify (handleSendMail_api req sess).2 = true) := by
  constructor
  · rcases handle_trace_cases req sess _ (Or.inl rfl) with h | ⟨cfg, h, hv⟩ |
      ⟨cfg, m, h, hv⟩ <;>
      rw [h] <;>
      simp_all [countActions, sendsAfterVerify, sendsAfterVerifyAux,
        isCreateA, isVerifyA, isSendA, List.filter]
  · rcases handle_trace_cases req sess _ (Or.inr rfl) with h | ⟨cfg, h, hv⟩ |
      ⟨cfg, m, h, hv⟩ <;>
      rw [h] <;>
      simp_all [countActions, sendsAfterVerify, sendsAfterVerifyAux,
        isCreateA, isVerifyA, isSendA, List.filter]

/-- Witness for C7: with a failing `verify()` double on a valid request,
`src/index.js` performs no send. -/
theorem session_call_discipline_witness :
    countActions isSendA
      (handleSendMail_index ⟨some smtpOk, some mailOk⟩ sessFailVerify).2 = 0 :=
  (session_call_discipline ⟨some smtpOk, some mailOk⟩
    sessFailVerify).1.2.2.2.1 (by decide)

/-- The limiter history after serving a request list is the reversed list of
its timestamps (every hit is recorded, served or rejected). -/
theorem serveAll_history (handle : Request → SmtpSession → Response × List SmtpAction)
    (reqs : List (Nat × Request × SmtpSession)) (h0 : List Nat) :
    (serveAll handle reqs h0).2 = (reqs.map fun x => x.1).reverse ++ h0 := by
  induction reqs generalizing h0 with
  | nil => simp [serveAll]
  | cons x rest ih =>
    obtain ⟨t, req, sess⟩ := x
    simp only [serveAll, rateLimitedRoute]
    by_cases hc : recentCount h0 t < maxRequests <;> simp [hc, ih]

/-- Serving a concatenation serves the first batch, then the second from the
history the first one left behind. -/
theorem serveAll_append (handle : Request → SmtpSession → Response × List SmtpAction)
    (l₁ l₂ : List (Nat × Request × SmtpSession)) (h0 : List Nat) :
    serveAll handle (l₁ ++ l₂) h0 =
      ((serveAll handle l₁ h0).1 ++
        (serveAll handle l₂ (serveAll handle l₁ h0).2).1,
       (serveAll handle l₂ (serveAll handle l₁ h0).2).2) := by
  induction l₁ generalizing h0 with
  | nil => simp [serveAll]
  | cons x rest ih =>
    obtain ⟨t, req, sess⟩ := x
    simp [serveAll, ih]

/-- C8: with the configuration constants from src (`windowMs = 15 * 60 * 1000`,
`max = 20`, body `{ error: "Too many requests" }`), after any 20 requests from
one client identity, a 21st request falling inside the 15-minute window of all
of them is answered 429 with the fixed body and is not forwarded to the mail
handler (no SMTP action); below the threshold the handler serves the request. -/
theorem rate_limit_21st (handle : Request → SmtpSession → Response × List SmtpAction)
    (reqs : List (Nat × Request × SmtpSession)) (t : Nat) (req : Request)
    (sess : SmtpSession) (hlen : reqs.length = maxRequests)
    (hwin : ∀ x ∈ reqs, t < x.1 + windowMs) :
    (serveAll handle (reqs ++ [(t, req, sess)]) []).1.getLast? =
      some (⟨429, rateLimitBody⟩, []) ∧
    (∀ history : List Nat, recentCount history t < maxRequests →
      (rateLimitedRoute handle history t req sess).1 = handle req sess) := by
  constructor
  · rw [serveAll_append]
    have hhist : (serveAll handle reqs []).2 = (reqs.map fun x => x.1).reverse := by
      simpa using serveAll_history handle reqs []
    have hcount : recentCount (serveAll handle reqs []).2 t = maxRequests := by
      rw [hhist]
      unfold recentCount
      rw [List.filter_eq_self.mpr]
      · simpa using hlen
      · intro s hs
        rw [List.mem_reverse, List.mem_map] at hs
        obtain ⟨x, hx, rfl⟩ := hs
        simpa using hwin x hx
    simp only [serveAll, rateLimitedRoute, hcount]
    simp
  · intro history hlt
    simp [rateLimitedRoute, hlt]

/-- Witness for C8: twenty instantaneous requests from one client followed by
a 21st inside the window — the 21st answer is the fixed 429. -/
theorem rate_limit_21st_witness :
    (serveAll handleSendMail_api
        (List.replicate 20 ((0 : Nat), (⟨none, none⟩ : Request), sessOk) ++
          [((1 : Nat), (⟨none, none⟩ : Request), sessOk)]) []).1.getLast? =
      some (⟨429, rateLimitBody⟩, []) :=
  (rate_limit_21st handleSendMail_api
    (List.replicate 20 ((0 : Nat), (⟨none, none⟩ : Request), sessOk))
    1 ⟨none, none⟩ sessOk (by decide) (by decide)).1

/-- `src/index.js` request with an empty (JS-falsy) `smtp.pass`. -/
def reqEmptyPass : Request :=
  ⟨some ⟨some "smtp.example.com", some 587, none, some "a@example.com", some ""⟩,
   some mailOk⟩

/-- Counterexample to C10: two requests identical except for `smtp.pass`
(empty vs `"y"`), same succeeding session outcome, get different responses —
the empty password fails the truthiness check with 400 while the other request
is served 200. -/
theorem pass_noninterference_counterexample :
    setPass reqEmptyPass (some "y") = ⟨some ⟨some "smtp.example.com", some 587,
      none, some "a@example.com", some "y"⟩, some mailOk⟩ ∧
    (handleSendMail_index reqEmptyPass sessOk).1 =
      ⟨400, Body.err "Incomplete SMTP credentials"⟩ ∧
    (handleSendMail_index (setPass reqEmptyPass (some "y")) sessOk).1 =
      ⟨200, Body.ok "Email sent successfully"⟩ := by decide

/-- C10 (amended): the `smtp.pass` secret never reaches a response — any two
requests identical except for a non-empty `smtp.pass` value receive, for the
same session outcome, identical responses; and every response body either
handler produces is drawn from the fixed finite list `fixedBodies` of constant
payloads containing no request data. -/
theorem pass_noninterference (req : Request) (p₁ p₂ : String) (sess : SmtpSession)
    (h₁ : (p₁ == "") = false) (h₂ : (p₂ == "") = false) :
    ((handleSendMail_index (setPass req (some p₁)) sess).1 =
      (handleSendMail_index (setPass req (some p₂)) sess).1) ∧
    ((handleSendMail_api (setPass req (some p₁)) sess).1 =
      (handleSendMail_api (setPass req (some p₂)) sess).1) ∧
    (handleSendMail_index req sess).1.body ∈ fixedBodies ∧
    (handleSendMail_api req sess).1.body ∈ fixedBodies := by
  obtain ⟨osmtp, omail⟩ := req
  refine ⟨?_, ?_, ?_, ?_⟩
  · cases osmtp with
    | none => rfl
    | some smtp =>
      cases omail with
      | none => rfl
      | some mail =>
        simp only [setPass, Option.map_some']
        simp only [handleSendMail_index, truthyS, h₁, h₂]
        split_ifs <;> simp_all [runSession_fst]
  · cases osmtp with
    | none => rfl
    | some smtp =>
      cases omail with
      | none => rfl
      | some mail =>
        simp only [setPass, Option.map_some']
        simp only [handleSendMail_api, truthyS, h₁, h₂]
        split_ifs <;> simp_all [runSession_fst]
  · cases osmtp with
    | none => cases omail <;> simp [handleSendMail_index, fixedBodies]
    | some smtp =>
      cases omail with
      | none => simp [handleSendMail_index, fixedBodies]
      | some mail =>
        simp only [handleSendMail_index]
        split_ifs <;> cases hv : sess.verifyOk <;> cases hsend : sess.sendOk <;>
          simp_all [runSession, fixedBodies]
  · cases osmtp with
    | none => cases omail <;> simp [handleSendMail_api, fixedBodies]
    | some smtp =>
      cases omail with
      | none => simp [handleSendMail_api, fixedBodies]
      | some mail =>
        simp only [handleSendMail_api]
        split_ifs <;> cases hv : sess.verifyOk <;> cases hsend : sess.sendOk <;>
          simp_all [runSession, fixedBodies]

/-- Witness for C10 (amended): swapping a non-empty password `"x"` for `"y"`
leaves both variants' responses unchanged on the spec's valid request. -/
theorem pass_noninterference_witness :
    ((handleSendMail_index (setPass ⟨some smtpOk, some mailOk⟩ (some "x")) sessOk).1 =
      (handleSendMail_index (setPass ⟨some smtpOk, some mailOk⟩ (some "y")) sessOk).1) ∧
    ((handleSendMail_api (setPass ⟨some smtpOk, some mailOk⟩ (some "x")) sessOk).1 =
      (handleSendMail_api (setPass ⟨some smtpOk, some mailOk⟩ (some "y")) sessOk).1) ∧
    (handleSendMail_index ⟨some smtpOk, some mailOk⟩ sessOk).1.body ∈ fixedBodies ∧
    (handleSendMail_api ⟨some smtpOk, some mailOk⟩ sessOk).1.body ∈ fixedBodies :=
  pass_noninterference ⟨some smtpOk, some mailOk⟩ "x" "y" sessOk
    (by decide) (by decide)

end MailApi
